import Mathlib

/-!
Shallow embedding of `src/mcp_server_motherduck/database.py`.

The embedded DuckDB engine (the `duckdb` module) is external to the
repository; it is modelled as an oracle (`Engine`) answering each
engine call (`Event`) as a function of the full call history, so that
theorems can quantify over engine behaviours (a first call failing, a
retry succeeding, and so on).  Every function below mirrors the
control flow of the Python source line by line; the trace component of
each result records the engine calls that were attempted, in order.
-/

namespace MotherDuck

/-- Boolean prefix test on character lists (Python `str.startswith`),
written recursively so that it reduces under `decide`. -/
def chPrefB : List Char → List Char → Bool
  | [], _ => true
  | _ :: _, [] => false
  | a :: as, b :: bs => a == b && chPrefB as bs

/-- Boolean substring test on character lists (Python `needle in hay`). -/
def chSubB (needle : List Char) : List Char → Bool
  | [] => needle.isEmpty
  | c :: t => chPrefB needle (c :: t) || chSubB needle t

/-- Python `s.startswith(p)`. -/
def strStartsWith (s p : String) : Bool := chPrefB p.data s.data

/-- Python `needle in hay` for strings. -/
def containsSub (hay needle : String) : Bool := chSubB needle.data hay.data

/-- Python truthiness of a `str | None` value: `None` and `""` are falsy. -/
def truthy : Option String → Bool
  | none => false
  | some s => !s.data.isEmpty

/-- The `Literal["duckdb", "motherduck", "s3", "r2"]` backend tag of
`_resolve_db_path_type`. -/
inductive DBType
  | duckdb
  | motherduck
  | s3
  | r2
deriving DecidableEq, BEq, Repr

/-- Python `self.db_type.upper()`. -/
def DBType.upper : DBType → String
  | .duckdb => "DUCKDB"
  | .motherduck => "MOTHERDUCK"
  | .s3 => "S3"
  | .r2 => "R2"

/-- The environment variables the module reads (`os.environ.get` /
`os.getenv`); `none` models an unset variable. -/
structure Env where
  motherduck_token : Option String := none
  AWS_ACCESS_KEY_ID : Option String := none
  AWS_SECRET_ACCESS_KEY : Option String := none
  AWS_DEFAULT_REGION : Option String := none
  R2_ACCESS_KEY_ID : Option String := none
  R2_SECRET_ACCESS_KEY : Option String := none
  R2_ACCOUNT_ID : Option String := none
deriving DecidableEq, Repr

/-- An environment with no variable set. -/
def envEmpty : Env := {}

/-- What a successful `conn.execute` exposes to `_execute`:
`fetchall()` rows and the cursor `description` (column name, declared
column type) pairs, in engine-reported order.  Cell values are kept
abstract as strings. -/
structure QueryOut where
  rows : List (List String) := []
  description : List (String × String) := []
deriving DecidableEq, Repr

instance : Inhabited QueryOut := ⟨{}⟩

/-- One observable call into the embedded engine.  `connect` is
`duckdb.connect(path, config={...custom_user_agent...}, read_only=...)`
(the constant user-agent config is not recorded); `connectMem` is
`duckdb.connect(':memory:')`; `exec` is `conn.execute(stmt)`;
`close` is `conn.close()`. -/
inductive Event
  | connect (path : String) (read_only : Bool)
  | connectMem
  | exec (stmt : String)
  | close
deriving DecidableEq, BEq, Repr

/-- The engine oracle: the outcome of each attempted call, as a
function of the calls attempted so far.  An `.error e` models the call
raising a Python exception whose `str` is `e`. -/
structure Engine where
  step : List Event → Event → Except String QueryOut

/-- Attempt one engine call: record the attempt in the trace and ask
the oracle for its outcome. -/
def stepE (eng : Engine) (tr : List Event) (ev : Event) :
    Except String QueryOut × List Event :=
  (eng.step tr ev, tr ++ [ev])

/-- `f"ATTACH '{self.db_path}' AS {db_alias};"` (line 118 / line 129). -/
def attachSQL (db_path db_alias : String) : String :=
  "ATTACH '" ++ db_path ++ "' AS " ++ db_alias ++ ";"

/-- `f"USE {db_alias};"` (line 120 / line 130). -/
def useSQL (db_alias : String) : String :=
  "USE " ++ db_alias ++ ";"

/-- `db_alias = "s3db" if self.db_type == "s3" else "r2db"` (line 114). -/
def alias_for (db_type : DBType) : String :=
  if db_type == DBType.s3 then "s3db" else "r2db"

/-- The S3 `CREATE SECRET` f-string of lines 88-95 (triple-quoted,
whitespace included). -/
def createSecretS3SQL (key secret region : String) : String :=
  "\n                        CREATE SECRET IF NOT EXISTS s3_secret (\n"
    ++ "                            TYPE S3,\n"
    ++ "                            KEY_ID '" ++ key ++ "',\n"
    ++ "                            SECRET '" ++ secret ++ "',\n"
    ++ "                            REGION '" ++ region ++ "'\n"
    ++ "                        );\n                    "

/-- The R2 `CREATE SECRET` f-string of lines 104-111. -/
def createSecretR2SQL (key secret account_id : String) : String :=
  "\n                        CREATE SECRET IF NOT EXISTS r2_secret (\n"
    ++ "                            TYPE r2,\n"
    ++ "                            KEY_ID '" ++ key ++ "',\n"
    ++ "                            SECRET '" ++ secret ++ "',\n"
    ++ "                            ACCOUNT_ID '" ++ account_id ++ "'\n"
    ++ "                        );\n                    "

/-- `_resolve_db_path_type` (lines 150-193).  `env` supplies
`os.getenv("motherduck_token")`; a raised `ValueError` is `.error`
with the exact message. -/
def _resolve_db_path_type (env : Env) (db_path : String)
    (motherduck_token : Option String) (saas_mode : Bool) :
    Except String (String × DBType) :=
  if strStartsWith db_path "r2://" then .ok (db_path, .r2)
  else if strStartsWith db_path "s3://" then .ok (db_path, .s3)
  else if strStartsWith db_path "md:" then
    if truthy motherduck_token then
      if saas_mode then
        .ok (db_path ++ "?motherduck_token=" ++ motherduck_token.getD ""
              ++ "&saas_mode=true", .motherduck)
      else
        .ok (db_path ++ "?motherduck_token=" ++ motherduck_token.getD "",
             .motherduck)
    else if truthy env.motherduck_token then
      .ok (db_path ++ "?motherduck_token=" ++ env.motherduck_token.getD "",
           .motherduck)
    else
      .error "Please set the `motherduck_token` as an environment variable or pass it as an argument with `--motherduck-token` when using `md:` as db_path."
  else if db_path == ":memory:" then .ok (db_path, .duckdb)
  else .ok (db_path, .duckdb)

/-- The S3/R2 setup of `_initialize_connection` before the attach
(lines 64-111): in-memory connect, `INSTALL httpfs;` with every
failure swallowed (`except: pass`), `LOAD httpfs;`, then the optional
`CREATE SECRET` guarded by the credential environment variables. -/
def s3r2_setup (eng : Engine) (env : Env) (db_type : DBType) :
    Except String Unit × List Event :=
  let (rm, t0) := stepE eng [] .connectMem
  match rm with
  | .error e => (.error e, t0)
  | .ok _ =>
    let (_, t1) := stepE eng t0 (.exec "INSTALL httpfs;")
    let (rl, t2) := stepE eng t1 (.exec "LOAD httpfs;")
    match rl with
    | .error e => (.error e, t2)
    | .ok _ =>
      if db_type == DBType.s3 then
        let aws_access_key := env.AWS_ACCESS_KEY_ID
        let aws_secret_key := env.AWS_SECRET_ACCESS_KEY
        let aws_region := env.AWS_DEFAULT_REGION.getD "us-east-1"
        if truthy aws_access_key && truthy aws_secret_key then
          let (rs, t3) := stepE eng t2 (.exec (createSecretS3SQL
            (aws_access_key.getD "") (aws_secret_key.getD "") aws_region))
          match rs with
          | .error e => (.error e, t3)
          | .ok _ => (.ok (), t3)
        else (.ok (), t2)
      else if db_type == DBType.r2 then
        let r2_access_key := env.R2_ACCESS_KEY_ID
        let r2_secret_key := env.R2_SECRET_ACCESS_KEY
        let r2_account_id := env.R2_ACCOUNT_ID
        if truthy r2_access_key && truthy r2_secret_key && truthy r2_account_id then
          let (rs, t3) := stepE eng t2 (.exec (createSecretR2SQL
            (r2_access_key.getD "") (r2_secret_key.getD "") (r2_account_id.getD "")))
          match rs with
          | .error e => (.error e, t3)
          | .ok _ => (.ok (), t3)
        else (.ok (), t2)
      else (.ok (), t2)

/-- The `except Exception as e` handler of the attach (lines 122-136):
if the message contains `"database does not exist"` and the policy is
not read-only, re-run the same `ATTACH`/`USE` pair once, re-raising any
failure of the rerun; otherwise re-raise `e`. -/
def attach_except_handler (eng : Engine) (db_path db_alias : String)
    (read_only : Bool) (e : String) (tr : List Event) :
    Except String (Option Unit) × List Event :=
  if containsSub e "database does not exist" && !read_only then
    let (ra, t1) := stepE eng tr (.exec (attachSQL db_path db_alias))
    match ra with
    | .error create_error => (.error create_error, t1)
    | .ok _ =>
      let (ru, t2) := stepE eng t1 (.exec (useSQL db_alias))
      match ru with
      | .error create_error => (.error create_error, t2)
      | .ok _ => (.ok (some ()), t2)
  else (.error e, tr)

/-- The attach part of `_initialize_connection` (lines 113-138):
`try: ATTACH; USE` with the handler above on failure of either. -/
def s3r2_attach (eng : Engine) (db_path : String) (db_type : DBType)
    (read_only : Bool) (tr : List Event) :
    Except String (Option Unit) × List Event :=
  let db_alias := alias_for db_type
  let (ra, t1) := stepE eng tr (.exec (attachSQL db_path db_alias))
  match ra with
  | .error e => attach_except_handler eng db_path db_alias read_only e t1
  | .ok _ =>
    let (ru, t2) := stepE eng t1 (.exec (useSQL db_alias))
    match ru with
    | .error e => attach_except_handler eng db_path db_alias read_only e t2
    | .ok _ => (.ok (some ()), t2)

/-- `_initialize_connection` (lines 37-148).  The result is the
`Optional[DuckDBPyConnection]` (here `Option Unit`: `some ()` is a held
handle), paired with the trace of attempted engine calls. -/
def _initialize_connection (eng : Engine) (env : Env) (db_path : String)
    (db_type : DBType) (read_only : Bool) :
    Except String (Option Unit) × List Event :=
  if (db_type == DBType.s3 || db_type == DBType.r2) && read_only then
    (.error ("Read-only mode is not supported for " ++ db_type.upper
        ++ " databases"), [])
  else if db_type == DBType.duckdb && read_only then
    let (rc, t1) := stepE eng [] (.connect db_path read_only)
    match rc with
    | .error e => (.error e, t1)
    | .ok _ =>
      let (rq, t2) := stepE eng t1 (.exec "SELECT 1")
      match rq with
      | .error e => (.error e, t2)
      | .ok _ => (.ok none, t2 ++ [Event.close])
  else if db_type == DBType.s3 || db_type == DBType.r2 then
    match s3r2_setup eng env db_type with
    | (.error e, t) => (.error e, t)
    | (.ok _, t) => s3r2_attach eng db_path db_type read_only t
  else
    let (rc, t1) := stepE eng [] (.connect db_path read_only)
    match rc with
    | .error e => (.error e, t1)
    | .ok _ => (.ok (some ()), t1)

/-- The state a constructed `DatabaseClient` holds. -/
structure Client where
  db_path : String
  db_type : DBType
  conn : Option Unit
  read_only : Bool
  json_output : Bool
deriving DecidableEq, Repr

/-- `DatabaseClient.__init__` (lines 15-35): resolve, then initialize.
`home_dir` only mutates the process environment variable `HOME`
(line 32-33), which is outside the engine-call trace, so it is
accepted and unused. -/
def DatabaseClient_init (eng : Engine) (env : Env) (db_path : String)
    (motherduck_token : Option String) (_home_dir : Option String)
    (saas_mode read_only json_output : Bool) :
    Except String Client × List Event :=
  match _resolve_db_path_type env db_path motherduck_token saas_mode with
  | .error e => (.error e, [])
  | .ok (path, ty) =>
    match _initialize_connection eng env path ty read_only with
    | (.error e, t) => (.error e, t)
    | (.ok conn, t) =>
      (.ok { db_path := path, db_type := ty, conn := conn,
             read_only := read_only, json_output := json_output }, t)

/-- The data `_execute` hands to the formatter: `tabulate(rows,
headers=...)` in tabular mode, `json.dumps([dict(zip(columns, row))
...])` in JSON mode.  The formatters themselves (`tabulate`,
`json.dumps`) are external libraries; the embedding records exactly
the data they are given. -/
inductive FormattedOut
  | tabular (headers : List String) (rows : List (List String))
  | jsonRows (objs : List (List (String × String)))
deriving DecidableEq, Repr

/-- Every string occurring in the formatted output data. -/
def FormattedOut.strings : FormattedOut → List String
  | .tabular headers rows => headers ++ rows.flatten
  | .jsonRows objs => objs.flatten.map Prod.fst ++ objs.flatten.map Prod.snd

/-- One step of Python `dict` construction: inserting the pair `kv`
when its key is already present updates that key's value in place
(Python keeps the key's first-insertion position and takes the last
assigned value); otherwise the pair is appended. -/
def pyDictInsert (d : List (String × String)) (kv : String × String) :
    List (String × String) :=
  if d.any (fun p => p.1 == kv.1) then
    d.map (fun p => if p.1 == kv.1 then (p.1, kv.2) else p)
  else d ++ [kv]

/-- Python `dict(pairs)`: an insertion-ordered map — keys in
first-occurrence order, the last value winning for a duplicated
key. -/
def pyDict (l : List (String × String)) : List (String × String) :=
  l.foldl pyDictInsert []

/-- Output shaping of `_execute` (lines 207-219): extract `columns`
and `column_types` from the cursor description, then build the
JSON-mode dicts — `dict(zip(columns, row))`, with Python dict
semantics for duplicate column names — or the tabular headers
`col + "\n" + str(col_type)`. -/
def shape_output (json_output : Bool) (q : QueryOut) : FormattedOut :=
  let rows := q.rows
  let columns := q.description.map Prod.fst
  let column_types := q.description.map Prod.snd
  if json_output then
    .jsonRows (rows.map (fun row => pyDict (columns.zip row)))
  else
    .tabular ((columns.zip column_types).map (fun p => p.1 ++ "\n" ++ p.2))
      rows

/-- `_execute` (lines 195-224).  With no held handle it opens an
ephemeral connection, runs the statement and closes the connection
after shaping the output; there is no `try/finally`, so a failing
statement propagates before the `close` is reached.  With a held
handle it runs the statement directly and never closes anything. -/
def _execute (eng : Engine) (c : Client) (tr : List Event) (q : String) :
    Except String FormattedOut × List Event :=
  match c.conn with
  | none =>
    let (rc, t1) := stepE eng tr (.connect c.db_path c.read_only)
    match rc with
    | .error e => (.error e, t1)
    | .ok _ =>
      let (rq, t2) := stepE eng t1 (.exec q)
      match rq with
      | .error e => (.error e, t2)
      | .ok out => (.ok (shape_output c.json_output out), t2 ++ [Event.close])
  | some _ =>
    let (rq, t1) := stepE eng tr (.exec q)
    match rq with
    | .error e => (.error e, t1)
    | .ok out => (.ok (shape_output c.json_output out), t1)

/-- `query` (lines 226-231): re-raise any `_execute` failure as
`ValueError(f"❌ Error executing query: {e}")`. -/
def query (eng : Engine) (c : Client) (tr : List Event) (q : String) :
    Except String FormattedOut × List Event :=
  match _execute eng c tr q with
  | (.ok r, t) => (.ok r, t)
  | (.error e, t) => (.error ("❌ Error executing query: " ++ e), t)

/-- `true` on `.ok`, `false` on `.error`. -/
def exOk {α : Type} : Except String α → Bool
  | .ok _ => true
  | .error _ => false

/-- An engine on which every call succeeds with the default output. -/
def engOK : Engine := ⟨fun _ _ => .ok default⟩

/-- An environment carrying only the lowercase warehouse token. -/
def envTok : Env := { motherduck_token := some "envtok" }

/-- An environment carrying the two S3 credential variables and no
region. -/
def envS3 : Env :=
  { AWS_ACCESS_KEY_ID := some "AK", AWS_SECRET_ACCESS_KEY := some "SK" }

/-- An environment carrying the three R2 credential variables. -/
def envR2 : Env :=
  { R2_ACCESS_KEY_ID := some "RK", R2_SECRET_ACCESS_KEY := some "RS",
    R2_ACCOUNT_ID := some "ACC" }

/-- A client in the local read-only ephemeral mode (`conn` is `None`
after the probe path). -/
def cLocalRO : Client :=
  { db_path := "local.db", db_type := .duckdb, conn := none,
    read_only := true, json_output := false }

/-- A client holding a live handle, tabular output. -/
def cHeld : Client :=
  { db_path := ":memory:", db_type := .duckdb, conn := some (),
    read_only := false, json_output := false }

/-- A client holding a live handle, JSON output. -/
def cHeldJson : Client :=
  { db_path := ":memory:", db_type := .duckdb, conn := some (),
    read_only := false, json_output := true }

/-- An engine on which every statement execution raises and every
other call succeeds. -/
def engExecFails : Engine :=
  ⟨fun _ ev => match ev with
    | .exec _ => .error "Binder Error: bad query"
    | _ => .ok default⟩

/-- An engine failing exactly the statement `bad` and succeeding on
everything else. -/
def engFailOn (bad : String) : Engine :=
  ⟨fun _ ev => match ev with
    | .exec s =>
      if s == bad then .error "Parser Error: syntax error" else .ok default
    | _ => .ok default⟩

/-- The engine-reported result of `SELECT 1 AS x`: one row, one column
named `x` of declared type `INTEGER`. -/
def outX : QueryOut := { rows := [["1"]], description := [("x", "INTEGER")] }

/-- An engine answering every statement with `outX`. -/
def engX : Engine :=
  ⟨fun _ ev => match ev with
    | .exec _ => .ok outX
    | _ => .ok default⟩

/-- An engine whose first execution of the given statement raises a
"database does not exist" error and which succeeds on every other
call — the retried execution of the same statement included. -/
def engAttachOnce (stmt : String) : Engine :=
  ⟨fun tr ev => match ev with
    | .exec s =>
      if s == stmt && !(tr.contains (Event.exec stmt)) then
        .error ("Catalog Error: database does not exist: " ++ s)
      else .ok default
    | _ => .ok default⟩

theorem engOK_ok : ∀ tr ev, ∃ o, engOK.step tr ev = .ok o :=
  fun _ _ => ⟨default, rfl⟩

theorem DBType.beq_refl (a : DBType) : (a == a) = true := by
  cases a <;> rfl

theorem duckdb_beq_s3 : (DBType.duckdb == DBType.s3) = false := rfl

theorem duckdb_beq_r2 : (DBType.duckdb == DBType.r2) = false := rfl

theorem duckdb_beq_duckdb : (DBType.duckdb == DBType.duckdb) = true := rfl

theorem s3_beq_s3 : (DBType.s3 == DBType.s3) = true := rfl

theorem s3_beq_r2 : (DBType.s3 == DBType.r2) = false := rfl

theorem s3_beq_duckdb : (DBType.s3 == DBType.duckdb) = false := rfl

theorem r2_beq_s3 : (DBType.r2 == DBType.s3) = false := rfl

theorem r2_beq_r2 : (DBType.r2 == DBType.r2) = true := rfl

theorem r2_beq_duckdb : (DBType.r2 == DBType.duckdb) = false := rfl

theorem md_beq_s3 : (DBType.motherduck == DBType.s3) = false := rfl

theorem md_beq_r2 : (DBType.motherduck == DBType.r2) = false := rfl

theorem md_beq_duckdb : (DBType.motherduck == DBType.duckdb) = false := rfl

attribute [simp] duckdb_beq_s3 duckdb_beq_r2 duckdb_beq_duckdb s3_beq_s3
  s3_beq_r2 s3_beq_duckdb r2_beq_s3 r2_beq_r2 r2_beq_duckdb md_beq_s3
  md_beq_r2 md_beq_duckdb

theorem chPrefB_self_append (n r : List Char) : chPrefB n (n ++ r) = true := by
  induction n with
  | nil => rfl
  | cons a as ih => simp [chPrefB, ih]

theorem chSubB_self_append (n r : List Char) : chSubB n (n ++ r) = true := by
  cases n with
  | nil => cases r <;> simp [chSubB, chPrefB]
  | cons a as =>
    have h : chPrefB (a :: as) ((a :: as) ++ r) = true := chPrefB_self_append _ _
    simp only [List.cons_append] at h
    simp [chSubB, h]

theorem chSubB_append_left (n x h : List Char) (hs : chSubB n h = true) :
    chSubB n (x ++ h) = true := by
  induction x with
  | nil => simpa using hs
  | cons c t ih => simp [chSubB, ih]

theorem containsSub_append_right (a b n : String)
    (hs : containsSub b n = true) : containsSub (a ++ b) n = true := by
  unfold containsSub at *
  rw [String.data_append]
  exact chSubB_append_left _ _ _ hs

theorem containsSub_part (x t y : String) :
    containsSub (x ++ t ++ y) t = true := by
  unfold containsSub
  rw [String.data_append, String.data_append, List.append_assoc]
  exact chSubB_append_left _ _ _ (chSubB_self_append _ _)

/-- C1: the object-store attach issued during initialization is the bare
statement `ATTACH '<path>' AS s3db;` with no read-only clause at all —
evaluated here at a concrete s3 address with `read_only = false`, the
full initialization trace is shown and the attach statement contains
neither a `READ_ONLY` nor a `READ ONLY` marker, contradicting the
claim (and the source's own comment and log line) that the attachment
is always read-only. -/
theorem C1_s3_attach_issues_no_read_only_clause :
    _initialize_connection engOK envEmpty "s3://bucket/db.duckdb" .s3 false
      = (.ok (some ()),
         [.connectMem, .exec "INSTALL httpfs;", .exec "LOAD httpfs;",
          .exec (attachSQL "s3://bucket/db.duckdb" "s3db"),
          .exec (useSQL "s3db")])
    ∧ attachSQL "s3://bucket/db.duckdb" "s3db"
        = "ATTACH 's3://bucket/db.duckdb' AS s3db;"
    ∧ containsSub (attachSQL "s3://bucket/db.duckdb" "s3db") "READ_ONLY" = false
    ∧ containsSub (attachSQL "s3://bucket/db.duckdb" "s3db") "READ ONLY" = false :=
  ⟨rfl, rfl, by decide, by decide⟩

/-- C2: `_resolve_db_path_type` classifies an address by first matching
prefix, in the order `r2://`, then `s3://`, then `md:` (warehouse,
when a token is available), and everything else — the `:memory:`
literal included — is `duckdb` (Local) with the address returned
verbatim. -/
theorem C2_resolve_classification_order (env : Env) (p : String)
    (tok : Option String) (saas : Bool) :
    (strStartsWith p "r2://" = true →
        _resolve_db_path_type env p tok saas = .ok (p, .r2))
  ∧ (strStartsWith p "r2://" = false → strStartsWith p "s3://" = true →
        _resolve_db_path_type env p tok saas = .ok (p, .s3))
  ∧ (strStartsWith p "r2://" = false → strStartsWith p "s3://" = false →
        strStartsWith p "md:" = true →
        (truthy tok || truthy env.motherduck_token) = true →
        ∃ p', _resolve_db_path_type env p tok saas = .ok (p', .motherduck))
  ∧ (strStartsWith p "r2://" = false → strStartsWith p "s3://" = false →
        strStartsWith p "md:" = false →
        _resolve_db_path_type env p tok saas = .ok (p, .duckdb)) := by
  refine ⟨?_, ?_, ?_, ?_⟩
  · intro h1
    simp [_resolve_db_path_type, h1]
  · intro h1 h2
    simp [_resolve_db_path_type, h1, h2]
  · intro h1 h2 h3 h4
    cases htok : truthy tok with
    | false =>
      have he : truthy env.motherduck_token = true := by
        cases hh : truthy env.motherduck_token with
        | false => rw [htok, hh] at h4; exact absurd h4 (by decide)
        | true => rfl
      exact ⟨p ++ "?motherduck_token=" ++ env.motherduck_token.getD "",
        by simp [_resolve_db_path_type, h1, h2, h3, htok, he]⟩
    | true =>
      cases saas with
      | false =>
        exact ⟨p ++ "?motherduck_token=" ++ tok.getD "",
          by simp [_resolve_db_path_type, h1, h2, h3, htok]⟩
      | true =>
        exact ⟨p ++ "?motherduck_token=" ++ tok.getD "" ++ "&saas_mode=true",
          by simp [_resolve_db_path_type, h1, h2, h3, htok]⟩
  · intro h1 h2 h3
    simp [_resolve_db_path_type, h1, h2, h3]

/-- Witness for C2 at concrete addresses of each class. -/
theorem C2_resolve_classification_order_witness :
    _resolve_db_path_type envEmpty "r2://bucket/db" none false
      = .ok ("r2://bucket/db", .r2)
  ∧ _resolve_db_path_type envEmpty "s3://bucket/db" none false
      = .ok ("s3://bucket/db", .s3)
  ∧ (∃ p', _resolve_db_path_type envEmpty "md:db" (some "tok") false
      = .ok (p', .motherduck))
  ∧ _resolve_db_path_type envEmpty ":memory:" none false
      = .ok (":memory:", .duckdb)
  ∧ _resolve_db_path_type envEmpty "/any/local/path.db" none false
      = .ok ("/any/local/path.db", .duckdb) := by
  refine ⟨?_, ?_, ?_, ?_, ?_⟩
  · exact (C2_resolve_classification_order envEmpty "r2://bucket/db" none
      false).1 (by decide)
  · exact (C2_resolve_classification_order envEmpty "s3://bucket/db" none
      false).2.1 (by decide) (by decide)
  · exact (C2_resolve_classification_order envEmpty "md:db" (some "tok")
      false).2.2.1 (by decide) (by decide) (by decide) (by decide)
  · exact (C2_resolve_classification_order envEmpty ":memory:" none
      false).2.2.2 (by decide) (by decide) (by decide)
  · exact (C2_resolve_classification_order envEmpty "/any/local/path.db" none
      false).2.2.2 (by decide) (by decide) (by decide)

/-- C3: a warehouse (`md:`) address with neither an explicit truthy
token nor a truthy environment token makes construction fail with the
configuration `ValueError` and an empty engine trace (no connection
attempt); an `r2://` or `s3://` address with `read_only = true` fails
with the read-only `ValueError`, also with an empty trace. -/
theorem C3_config_errors_before_any_io (eng : Engine) (env : Env)
    (p : String) (tok hd : Option String) (saas jo : Bool) :
    (strStartsWith p "r2://" = false → strStartsWith p "s3://" = false →
       strStartsWith p "md:" = true →
       truthy tok = false → truthy env.motherduck_token = false →
       ∀ ro, DatabaseClient_init eng env p tok hd saas ro jo
         = (.error "Please set the `motherduck_token` as an environment variable or pass it as an argument with `--motherduck-token` when using `md:` as db_path.", []))
  ∧ (strStartsWith p "r2://" = true →
       DatabaseClient_init eng env p tok hd saas true jo
         = (.error "Read-only mode is not supported for R2 databases", []))
  ∧ (strStartsWith p "r2://" = false → strStartsWith p "s3://" = true →
       DatabaseClient_init eng env p tok hd saas true jo
         = (.error "Read-only mode is not supported for S3 databases", [])) := by
  refine ⟨?_, ?_, ?_⟩
  · intro h1 h2 h3 h4 h5 ro
    simp [DatabaseClient_init, _resolve_db_path_type, h1, h2, h3, h4, h5]
  · intro h1
    have hres : _resolve_db_path_type env p tok saas = .ok (p, .r2) := by
      simp [_resolve_db_path_type, h1]
    simp [DatabaseClient_init, hres, _initialize_connection, DBType.upper]
  · intro h1 h2
    have hres : _resolve_db_path_type env p tok saas = .ok (p, .s3) := by
      simp [_resolve_db_path_type, h1, h2]
    simp [DatabaseClient_init, hres, _initialize_connection, DBType.upper]

/-- Witness for C3 at concrete addresses. -/
theorem C3_config_errors_before_any_io_witness :
    DatabaseClient_init engOK envEmpty "md:db" none none false false false
      = (.error "Please set the `motherduck_token` as an environment variable or pass it as an argument with `--motherduck-token` when using `md:` as db_path.", [])
  ∧ DatabaseClient_init engOK envEmpty "r2://bucket/db" none none false true false
      = (.error "Read-only mode is not supported for R2 databases", [])
  ∧ DatabaseClient_init engOK envEmpty "s3://bucket/db" none none false true false
      = (.error "Read-only mode is not supported for S3 databases", []) := by
  refine ⟨?_, ?_, ?_⟩
  · exact (C3_config_errors_before_any_io engOK envEmpty "md:db" none none
      false false).1 (by decide) (by decide) (by decide) (by decide)
      (by decide) false
  · exact (C3_config_errors_before_any_io engOK envEmpty "r2://bucket/db"
      none none false false).2.1 (by decide)
  · exact (C3_config_errors_before_any_io engOK envEmpty "s3://bucket/db"
      none none false false).2.2 (by decide) (by decide)

/-- C4 counterexample: with the token found in the environment (no
explicit argument) and `saas_mode = true`, the resolved address
carries the token but no SaaS-mode marker at all — the env-token
branch of `_resolve_db_path_type` ignores `saas_mode`. -/
theorem C4_env_token_drops_saas_marker :
    _resolve_db_path_type envTok "md:mydb" none true
      = .ok ("md:mydb?motherduck_token=envtok", .motherduck)
    ∧ containsSub "md:mydb?motherduck_token=envtok" "saas_mode" = false :=
  ⟨rfl, by decide⟩

/-- C4 amended: only an explicit truthy token combines with
`saas_mode = true` to append both the token and the
`saas_mode=true` marker as query parameters (kind `motherduck`); when
the token comes from the environment, the resolved address appends
the token only, with no SaaS marker, even though `saas_mode` is set. -/
theorem C4_saas_mode_markers (env : Env) (p : String) (tok : Option String)
    (h1 : strStartsWith p "r2://" = false)
    (h2 : strStartsWith p "s3://" = false)
    (h3 : strStartsWith p "md:" = true) :
    (truthy tok = true →
       _resolve_db_path_type env p tok true
         = .ok (p ++ "?motherduck_token=" ++ tok.getD "" ++ "&saas_mode=true",
                .motherduck)
       ∧ containsSub
           (p ++ "?motherduck_token=" ++ tok.getD "" ++ "&saas_mode=true")
           "saas_mode=true" = true
       ∧ containsSub
           (p ++ "?motherduck_token=" ++ tok.getD "" ++ "&saas_mode=true")
           (tok.getD "") = true)
  ∧ (truthy tok = false → truthy env.motherduck_token = true →
       _resolve_db_path_type env p tok true
         = .ok (p ++ "?motherduck_token=" ++ env.motherduck_token.getD "",
                .motherduck)) := by
  constructor
  · intro ht
    refine ⟨by simp [_resolve_db_path_type, h1, h2, h3, ht], ?_, ?_⟩
    · exact containsSub_append_right _ _ _ (by decide)
    · exact containsSub_part (p ++ "?motherduck_token=") (tok.getD "")
        "&saas_mode=true"
  · intro ht he
    simp [_resolve_db_path_type, h1, h2, h3, ht, he]

/-- Witness for C4 at the spec's concrete scenario (`md:mydb`,
explicit token `tok123`, SaaS mode on) and at the env-token variant. -/
theorem C4_saas_mode_markers_witness :
    (_resolve_db_path_type envEmpty "md:mydb" (some "tok123") true
       = .ok ("md:mydb?motherduck_token=tok123&saas_mode=true", .motherduck)
     ∧ containsSub "md:mydb?motherduck_token=tok123&saas_mode=true"
         "saas_mode=true" = true
     ∧ containsSub "md:mydb?motherduck_token=tok123&saas_mode=true"
         "tok123" = true)
  ∧ _resolve_db_path_type envTok "md:mydb" none true
      = .ok ("md:mydb?motherduck_token=envtok", .motherduck) := by
  constructor
  · exact (C4_saas_mode_markers envEmpty "md:mydb" (some "tok123")
      (by decide) (by decide) (by decide)).1 (by decide)
  · exact (C4_saas_mode_markers envTok "md:mydb" none
      (by decide) (by decide) (by decide)).2 (by decide) (by decide)

/-- C5: for a local (`duckdb`) address with `read_only = true`,
construction opens a read-only probe connection, runs `SELECT 1`,
closes it, and returns a client holding no handle; each subsequent
`_execute` then opens its own ephemeral connection and closes it
again, so two sequential calls produce two independent
connect/execute/close triples in the trace. -/
theorem C5_local_readonly_probe_and_ephemeral (eng : Engine) (env : Env)
    (p : String) (tok hd : Option String) (saas jo : Bool) (q1 q2 : String)
    (hok : ∀ tr ev, ∃ o, eng.step tr ev = .ok o)
    (h1 : strStartsWith p "r2://" = false)
    (h2 : strStartsWith p "s3://" = false)
    (h3 : strStartsWith p "md:" = false) :
    DatabaseClient_init eng env p tok hd saas true jo
      = (.ok { db_path := p, db_type := .duckdb, conn := none,
               read_only := true, json_output := jo },
         [.connect p true, .exec "SELECT 1", .close])
  ∧ exOk (_execute eng
      { db_path := p, db_type := .duckdb, conn := none,
        read_only := true, json_output := jo }
      [.connect p true, .exec "SELECT 1", .close] q1).1 = true
  ∧ (_execute eng
      { db_path := p, db_type := .duckdb, conn := none,
        read_only := true, json_output := jo }
      [.connect p true, .exec "SELECT 1", .close] q1).2
      = [.connect p true, .exec "SELECT 1", .close,
         .connect p true, .exec q1, .close]
  ∧ exOk (_execute eng
      { db_path := p, db_type := .duckdb, conn := none,
        read_only := true, json_output := jo }
      [.connect p true, .exec "SELECT 1", .close,
       .connect p true, .exec q1, .close] q2).1 = true
  ∧ (_execute eng
      { db_path := p, db_type := .duckdb, conn := none,
        read_only := true, json_output := jo }
      [.connect p true, .exec "SELECT 1", .close,
       .connect p true, .exec q1, .close] q2).2
      = [.connect p true, .exec "SELECT 1", .close,
         .connect p true, .exec q1, .close,
         .connect p true, .exec q2, .close] := by
  obtain ⟨o1, ho1⟩ := hok [] (.connect p true)
  obtain ⟨o2, ho2⟩ := hok [.connect p true] (.exec "SELECT 1")
  obtain ⟨o3, ho3⟩ := hok [.connect p true, .exec "SELECT 1", .close]
    (.connect p true)
  obtain ⟨o4, ho4⟩ := hok [.connect p true, .exec "SELECT 1", .close,
    .connect p true] (.exec q1)
  obtain ⟨o5, ho5⟩ := hok [.connect p true, .exec "SELECT 1", .close,
    .connect p true, .exec q1, .close] (.connect p true)
  obtain ⟨o6, ho6⟩ := hok [.connect p true, .exec "SELECT 1", .close,
    .connect p true, .exec q1, .close, .connect p true] (.exec q2)
  have hres : _resolve_db_path_type env p tok saas = .ok (p, .duckdb) := by
    simp [_resolve_db_path_type, h1, h2, h3]
  refine ⟨?_, ?_, ?_, ?_, ?_⟩
  · simp [DatabaseClient_init, hres, _initialize_connection, stepE, ho1, ho2]
  · simp [_execute, stepE, ho3, ho4, exOk]
  · simp [_execute, stepE, ho3, ho4]
  · simp [_execute, stepE, ho5, ho6, exOk]
  · simp [_execute, stepE, ho5, ho6]

/-- Witness for C5 on the always-succeeding engine at a concrete local
path. -/
theorem C5_local_readonly_probe_and_ephemeral_witness :
    DatabaseClient_init engOK envEmpty "local.db" none none false true false
      = (.ok { db_path := "local.db", db_type := .duckdb, conn := none,
               read_only := true, json_output := false },
         [.connect "local.db" true, .exec "SELECT 1", .close])
  ∧ (_execute engOK
      { db_path := "local.db", db_type := .duckdb, conn := none,
        read_only := true, json_output := false }
      [.connect "local.db" true, .exec "SELECT 1", .close] "SELECT 2").2
      = [.connect "local.db" true, .exec "SELECT 1", .close,
         .connect "local.db" true, .exec "SELECT 2", .close] := by
  have h := C5_local_readonly_probe_and_ephemeral engOK envEmpty "local.db"
    none none false false "SELECT 2" "SELECT 3" engOK_ok
    (by decide) (by decide) (by decide)
  exact ⟨h.1, h.2.2.1⟩

/-- C6 counterexample: in ephemeral mode (no held handle) a failing
statement propagates before the close is reached — `_execute` has no
`try/finally` — so the connection opened for the query is NOT closed
on the error path: the trace ends without a close event. -/
theorem C6_failing_statement_leaks_ephemeral_connection :
    _execute engExecFails cLocalRO [] "SELECT * FROM t"
      = (.error "Binder Error: bad query",
         [.connect "local.db" true, .exec "SELECT * FROM t"])
    ∧ Event.close
        ∉ [Event.connect "local.db" true, Event.exec "SELECT * FROM t"] :=
  ⟨rfl, by simp⟩

/-- C6 amended: on the success path the ephemeral connection is closed
before `_execute` returns; on statement failure the error propagates
without any close event being issued. -/
theorem C6_ephemeral_close_on_success_only (eng : Engine) (c : Client)
    (tr : List Event) (q : String) (hc : c.conn = none) :
    (∀ o1 o2, eng.step tr (.connect c.db_path c.read_only) = .ok o1 →
       eng.step (tr ++ [.connect c.db_path c.read_only]) (.exec q) = .ok o2 →
       _execute eng c tr q
         = (.ok (shape_output c.json_output o2),
            tr ++ [.connect c.db_path c.read_only, .exec q, Event.close]))
  ∧ (∀ o1 e, eng.step tr (.connect c.db_path c.read_only) = .ok o1 →
       eng.step (tr ++ [.connect c.db_path c.read_only]) (.exec q) = .error e →
       _execute eng c tr q
         = (.error e, tr ++ [.connect c.db_path c.read_only, .exec q])
       ∧ Event.close ∉ [Event.connect c.db_path c.read_only, Event.exec q]) := by
  constructor
  · intro o1 o2 h1 h2
    simp [_execute, hc, stepE, h1, h2]
  · intro o1 e h1 h2
    exact ⟨by simp [_execute, hc, stepE, h1, h2], by simp⟩

/-- Witness for C6 amended: both exit paths at concrete inputs. -/
theorem C6_ephemeral_close_on_success_only_witness :
    _execute engOK cLocalRO [] "SELECT 1"
      = (.ok (.tabular [] []),
         [.connect "local.db" true, .exec "SELECT 1", .close])
  ∧ _execute engExecFails cLocalRO [] "SELECT 1"
      = (.error "Binder Error: bad query",
         [.connect "local.db" true, .exec "SELECT 1"]) := by
  constructor
  · exact (C6_ephemeral_close_on_success_only engOK cLocalRO [] "SELECT 1"
      rfl).1 default default rfl rfl
  · exact ((C6_ephemeral_close_on_success_only engExecFails cLocalRO []
      "SELECT 1" rfl).2 default "Binder Error: bad query" rfl rfl).1

/-- C7: an engine-level execution failure surfaces through `query` as
the wrapped error carrying the original backend message (never
swallowed); on a held handle the only engine call `query` makes is the
statement itself — no close is ever issued — and the client remains
usable: a subsequent call whose statement the engine accepts
succeeds. -/
theorem C7_query_error_wrapping_and_client_survival (eng : Engine)
    (c : Client) (tr : List Event) (q1 q2 : String) :
    (∀ e, (_execute eng c tr q1).1 = .error e →
       (query eng c tr q1).1 = .error ("❌ Error executing query: " ++ e)
       ∧ (query eng c tr q1).2 = (_execute eng c tr q1).2)
  ∧ (c.conn = some () →
       (∀ e, eng.step tr (.exec q1) = .error e →
          query eng c tr q1
            = (.error ("❌ Error executing query: " ++ e), tr ++ [.exec q1])
          ∧ Event.close ∉ [Event.exec q1])
       ∧ (∀ e o, eng.step tr (.exec q1) = .error e →
            eng.step (tr ++ [.exec q1]) (.exec q2) = .ok o →
            query eng c (tr ++ [.exec q1]) q2
              = (.ok (shape_output c.json_output o),
                 tr ++ [.exec q1, .exec q2]))) := by
  constructor
  · intro e he
    cases hh : _execute eng c tr q1 with
    | mk r t =>
      rw [hh] at he
      cases r with
      | ok v => simp at he
      | error e2 =>
        have he2 : e2 = e := by simpa using he
        subst he2
        exact ⟨by simp [query, hh], by simp [query, hh]⟩
  · intro hc
    constructor
    · intro e h1
      exact ⟨by simp [query, _execute, hc, stepE, h1], by simp⟩
    · intro e o h1 h2
      simp [query, _execute, hc, stepE, h2]

/-- Witness for C7: a failing statement on a held handle, then a
succeeding one on the same client. -/
theorem C7_query_error_wrapping_and_client_survival_witness :
    query (engFailOn "BAD") cHeld [] "BAD"
      = (.error "❌ Error executing query: Parser Error: syntax error",
         [.exec "BAD"])
  ∧ query (engFailOn "BAD") cHeld [.exec "BAD"] "SELECT 1"
      = (.ok (.tabular [] []), [.exec "BAD", .exec "SELECT 1"]) := by
  have h := C7_query_error_wrapping_and_client_survival (engFailOn "BAD")
    cHeld [] "BAD" "SELECT 1"
  constructor
  · exact ((h.2 rfl).1 "Parser Error: syntax error" rfl).1
  · exact (h.2 rfl).2 "Parser Error: syntax error" default rfl rfl

/-- C8 counterexample: in JSON output mode the formatter receives only
column names and cell values; the engine-declared type identifier
(`INTEGER` here) appears nowhere in the output data, so the per-column
declared types are not preserved in JSON mode. -/
theorem C8_json_output_drops_column_types :
    outX.description = [("x", "INTEGER")]
    ∧ (_execute engX cHeldJson [] "SELECT 1 AS x").1
        = .ok (.jsonRows [[("x", "1")]])
    ∧ FormattedOut.strings (.jsonRows [[("x", "1")]]) = ["x", "1"]
    ∧ ∀ s ∈ FormattedOut.strings (.jsonRows [[("x", "1")]]),
        containsSub s "INTEGER" = false :=
  ⟨rfl, rfl, rfl, by decide⟩

theorem foldl_pyDictInsert_eq_append (l : List (String × String)) :
    ∀ d : List (String × String),
      ((d ++ l).map Prod.fst).Nodup →
      List.foldl pyDictInsert d l = d ++ l := by
  induction l with
  | nil =>
    intro d _
    simp
  | cons kv t ih =>
    intro d h
    have hmem : kv.1 ∉ d.map Prod.fst := by
      intro hin
      have hn : (d.map Prod.fst ++ kv.1 :: t.map Prod.fst).Nodup := by
        simpa using h
      rcases List.nodup_append.mp hn with ⟨-, -, hdisj⟩
      exact hdisj hin (by simp)
    have hany : d.any (fun p => p.1 == kv.1) = false := by
      rw [List.any_eq_false]
      intro p hp hbeq
      have hpk : p.1 = kv.1 := by simpa using hbeq
      exact hmem (hpk ▸ List.mem_map_of_mem Prod.fst hp)
    have hstep : pyDictInsert d kv = d ++ [kv] := by
      simp [pyDictInsert, hany]
    calc List.foldl pyDictInsert d (kv :: t)
        = List.foldl pyDictInsert (pyDictInsert d kv) t := rfl
      _ = List.foldl pyDictInsert (d ++ [kv]) t := by rw [hstep]
      _ = (d ++ [kv]) ++ t := ih (d ++ [kv]) (by simpa using h)
      _ = d ++ kv :: t := by simp

theorem pyDict_eq_self_of_nodup (l : List (String × String))
    (h : (l.map Prod.fst).Nodup) : pyDict l = l := by
  simpa [pyDict] using foldl_pyDictInsert_eq_append l [] (by simpa using h)

/-- C8 amended: tabular mode preserves column order and per-column
declared types (each header is the column name joined with its
declared type, in engine order, over the unchanged rows); JSON mode
omits the declared type identifiers and builds each row object as the
Python dict of the (column, value) pairs — keys kept in
first-occurrence column order with the last value winning for a
duplicated name — so the key order coincides with the column order
exactly when the engine-reported column names are distinct. -/
theorem C8_column_order_and_types (q : QueryOut) :
    shape_output false q
      = .tabular (q.description.map (fun d => d.1 ++ "\n" ++ d.2)) q.rows
  ∧ shape_output true q
      = .jsonRows (q.rows.map (fun row =>
          pyDict ((q.description.map Prod.fst).zip row)))
  ∧ (∀ row ∈ q.rows, q.description.length ≤ row.length →
       (q.description.map Prod.fst).Nodup →
       (pyDict ((q.description.map Prod.fst).zip row)).map Prod.fst
         = q.description.map Prod.fst) := by
  refine ⟨?_, rfl, ?_⟩
  · simp [shape_output, List.zip_map', List.map_map]
  · intro row _ hlen hnd
    have hz : ((q.description.map Prod.fst).zip row).map Prod.fst
        = q.description.map Prod.fst :=
      List.map_fst_zip _ _ (by simpa using hlen)
    rw [pyDict_eq_self_of_nodup _ (by rw [hz]; exact hnd), hz]

/-- Witness for C8 amended at the `SELECT 1 AS x` result, together
with the duplicate-name collapse the dict model captures. -/
theorem C8_column_order_and_types_witness :
    shape_output false outX = .tabular ["x\nINTEGER"] [["1"]]
  ∧ shape_output true outX = .jsonRows [[("x", "1")]]
  ∧ (pyDict (["x"].zip ["1"])).map Prod.fst = ["x"]
  ∧ pyDict [("x", "1"), ("x", "2")] = [("x", "2")] := by
  have h := C8_column_order_and_types outX
  exact ⟨h.1, h.2.1, h.2.2 ["1"] (by decide) (by decide) (by decide), rfl⟩

/-- C9: for an object-store initialization whose first attach raises,
the attach is re-executed exactly once when the message contains
"database does not exist" and the policy is not read-only (exactly two
attach statements in the trace, and initialization succeeds exactly
when the rerun succeeds); a non-matching message propagates with a
single attach and no retry; and with `read_only = true` initialization
fails before any attach at all. -/
theorem C9_attach_retry_exactly_once (eng : Engine) (env : Env) (p : String)
    (ty : DBType) (u : Unit) (tr0 : List Event) (e : String)
    (hty : (ty == DBType.s3 || ty == DBType.r2) = true)
    (hsetup : s3r2_setup eng env ty = (.ok u, tr0))
    (hatt : eng.step tr0 (.exec (attachSQL p (alias_for ty))) = .error e) :
    (containsSub e "database does not exist" = false →
       _initialize_connection eng env p ty false
         = (.error e, tr0 ++ [.exec (attachSQL p (alias_for ty))]))
  ∧ (containsSub e "database does not exist" = true →
       (∀ e2, eng.step (tr0 ++ [.exec (attachSQL p (alias_for ty))])
            (.exec (attachSQL p (alias_for ty))) = .error e2 →
          _initialize_connection eng env p ty false
            = (.error e2, tr0 ++ [.exec (attachSQL p (alias_for ty)),
                .exec (attachSQL p (alias_for ty))]))
       ∧ (∀ o2, eng.step (tr0 ++ [.exec (attachSQL p (alias_for ty))])
            (.exec (attachSQL p (alias_for ty))) = .ok o2 →
          (∀ o3, eng.step (tr0 ++ [.exec (attachSQL p (alias_for ty)),
                .exec (attachSQL p (alias_for ty))])
              (.exec (useSQL (alias_for ty))) = .ok o3 →
            _initialize_connection eng env p ty false
              = (.ok (some ()),
                 tr0 ++ [.exec (attachSQL p (alias_for ty)),
                   .exec (attachSQL p (alias_for ty)),
                   .exec (useSQL (alias_for ty))]))
          ∧ (∀ e3, eng.step (tr0 ++ [.exec (attachSQL p (alias_for ty)),
                .exec (attachSQL p (alias_for ty))])
              (.exec (useSQL (alias_for ty))) = .error e3 →
            _initialize_connection eng env p ty false
              = (.error e3,
                 tr0 ++ [.exec (attachSQL p (alias_for ty)),
                   .exec (attachSQL p (alias_for ty)),
                   .exec (useSQL (alias_for ty))]))))
  ∧ _initialize_connection eng env p ty true
      = (.error ("Read-only mode is not supported for " ++ ty.upper
          ++ " databases"), []) := by
  refine ⟨?_, ?_, ?_⟩
  · intro hmsg
    simp [_initialize_connection, hty, hsetup, s3r2_attach, stepE, hatt,
      attach_except_handler, hmsg]
  · intro hmsg
    constructor
    · intro e2 h2
      simp [_initialize_connection, hty, hsetup, s3r2_attach, stepE, hatt,
        attach_except_handler, hmsg, h2]
    · intro o2 h2
      constructor
      · intro o3 h3
        simp [_initialize_connection, hty, hsetup, s3r2_attach, stepE, hatt,
          attach_except_handler, hmsg, h2, h3]
      · intro e3 h3
        simp [_initialize_connection, hty, hsetup, s3r2_attach, stepE, hatt,
          attach_except_handler, hmsg, h2, h3]
  · simp [_initialize_connection, hty]

/-- Witness for C9 on an engine whose first attach of the s3 address
fails with the engine's "database does not exist" message: the attach
is rerun once and initialization succeeds. -/
theorem C9_attach_retry_exactly_once_witness :
    _initialize_connection (engAttachOnce (attachSQL "s3://bucket/db" "s3db"))
        envEmpty "s3://bucket/db" .s3 false
      = (.ok (some ()),
         [.connectMem, .exec "INSTALL httpfs;", .exec "LOAD httpfs;",
          .exec (attachSQL "s3://bucket/db" "s3db"),
          .exec (attachSQL "s3://bucket/db" "s3db"),
          .exec (useSQL "s3db")])
  ∧ _initialize_connection (engAttachOnce (attachSQL "s3://bucket/db" "s3db"))
        envEmpty "s3://bucket/db" .s3 true
      = (.error ("Read-only mode is not supported for "
          ++ DBType.s3.upper ++ " databases"), []) := by
  have h := C9_attach_retry_exactly_once
    (engAttachOnce (attachSQL "s3://bucket/db" "s3db")) envEmpty
    "s3://bucket/db" .s3 ()
    [.connectMem, .exec "INSTALL httpfs;", .exec "LOAD httpfs;"]
    ("Catalog Error: database does not exist: "
      ++ attachSQL "s3://bucket/db" "s3db")
    rfl rfl rfl
  exact ⟨((h.2.1 (by decide)).2 default rfl).1 default rfl, h.2.2⟩

/-- C10: during object-store setup a named secret is registered iff
the backend's credential environment variables are all truthy — key id
and secret key for s3, with the region defaulting to `us-east-1` when
the region variable is absent; key id, secret key and account id for
r2 — and in every other case setup proceeds with no secret
statement. -/
theorem C10_secret_registration (eng : Engine) (env : Env)
    (hok : ∀ tr ev, ∃ o, eng.step tr ev = .ok o) :
    (truthy env.AWS_ACCESS_KEY_ID = true →
       truthy env.AWS_SECRET_ACCESS_KEY = true →
       s3r2_setup eng env .s3
         = (.ok (), [.connectMem, .exec "INSTALL httpfs;",
             .exec "LOAD httpfs;",
             .exec (createSecretS3SQL (env.AWS_ACCESS_KEY_ID.getD "")
               (env.AWS_SECRET_ACCESS_KEY.getD "")
               (env.AWS_DEFAULT_REGION.getD "us-east-1"))]))
  ∧ ((truthy env.AWS_ACCESS_KEY_ID && truthy env.AWS_SECRET_ACCESS_KEY)
        = false →
       s3r2_setup eng env .s3
         = (.ok (), [.connectMem, .exec "INSTALL httpfs;",
             .exec "LOAD httpfs;"]))
  ∧ (env.AWS_DEFAULT_REGION = none →
       env.AWS_DEFAULT_REGION.getD "us-east-1" = "us-east-1")
  ∧ (truthy env.R2_ACCESS_KEY_ID = true →
       truthy env.R2_SECRET_ACCESS_KEY = true →
       truthy env.R2_ACCOUNT_ID = true →
       s3r2_setup eng env .r2
         = (.ok (), [.connectMem, .exec "INSTALL httpfs;",
             .exec "LOAD httpfs;",
             .exec (createSecretR2SQL (env.R2_ACCESS_KEY_ID.getD "")
               (env.R2_SECRET_ACCESS_KEY.getD "")
               (env.R2_ACCOUNT_ID.getD ""))]))
  ∧ ((truthy env.R2_ACCESS_KEY_ID && truthy env.R2_SECRET_ACCESS_KEY
        && truthy env.R2_ACCOUNT_ID) = false →
       s3r2_setup eng env .r2
         = (.ok (), [.connectMem, .exec "INSTALL httpfs;",
             .exec "LOAD httpfs;"])) := by
  obtain ⟨o1, ho1⟩ := hok [] .connectMem
  obtain ⟨o2, ho2⟩ := hok [.connectMem] (.exec "INSTALL httpfs;")
  obtain ⟨o3, ho3⟩ := hok [.connectMem, .exec "INSTALL httpfs;"]
    (.exec "LOAD httpfs;")
  obtain ⟨o4, ho4⟩ := hok [.connectMem, .exec "INSTALL httpfs;",
    .exec "LOAD httpfs;"]
    (.exec (createSecretS3SQL (env.AWS_ACCESS_KEY_ID.getD "")
      (env.AWS_SECRET_ACCESS_KEY.getD "")
      (env.AWS_DEFAULT_REGION.getD "us-east-1")))
  obtain ⟨o5, ho5⟩ := hok [.connectMem, .exec "INSTALL httpfs;",
    .exec "LOAD httpfs;"]
    (.exec (createSecretR2SQL (env.R2_ACCESS_KEY_ID.getD "")
      (env.R2_SECRET_ACCESS_KEY.getD "") (env.R2_ACCOUNT_ID.getD "")))
  refine ⟨?_, ?_, ?_, ?_, ?_⟩
  · intro ha hs
    simp [s3r2_setup, stepE, ho1, ho2, ho3, ho4, ha, hs]
  · intro h
    simp [s3r2_setup, stepE, ho1, ho2, ho3, h]
  · intro h
    rw [h]
    rfl
  · intro ha hs hc
    simp [s3r2_setup, stepE, ho1, ho2, ho3, ho5, ha, hs, hc]
  · intro h
    simp [s3r2_setup, stepE, ho1, ho2, ho3, h]

/-- Witness for C10 on the always-succeeding engine, with and without
credentials, for both backends. -/
theorem C10_secret_registration_witness :
    s3r2_setup engOK envS3 .s3
      = (.ok (), [.connectMem, .exec "INSTALL httpfs;", .exec "LOAD httpfs;",
          .exec (createSecretS3SQL "AK" "SK" "us-east-1")])
  ∧ s3r2_setup engOK envEmpty .s3
      = (.ok (), [.connectMem, .exec "INSTALL httpfs;", .exec "LOAD httpfs;"])
  ∧ s3r2_setup engOK envR2 .r2
      = (.ok (), [.connectMem, .exec "INSTALL httpfs;", .exec "LOAD httpfs;",
          .exec (createSecretR2SQL "RK" "RS" "ACC")])
  ∧ s3r2_setup engOK envEmpty .r2
      = (.ok (), [.connectMem, .exec "INSTALL httpfs;",
          .exec "LOAD httpfs;"]) := by
  have h1 := C10_secret_registration engOK envS3 engOK_ok
  have h2 := C10_secret_registration engOK envEmpty engOK_ok
  have h3 := C10_secret_registration engOK envR2 engOK_ok
  exact ⟨h1.1 rfl rfl, h2.2.1 rfl, h3.2.2.2.1 rfl rfl rfl, h2.2.2.2.2 rfl⟩

end MotherDuck
